import Mathlib

/-!
Verification of the statistical core of `bootstrapContrast/bootstrapContrast.py`
(functions `bootstrap`, `bootstrap_contrast` and the statistical part of
`pairedcontrast`), against the repository's specification.

Modelling conventions:
* Numeric values are modelled as exact rationals (`ℚ`).  The Python code works
  in IEEE-754 doubles; in exact arithmetic no value is ever `NaN`, so the
  `np.nan_to_num` guard on index computation is the identity in this model.
* `np.round` uses round-half-to-even (banker's rounding); `npRound` models it.
* The random source is explicit: a resampling plan `draws : ℕ → List ℕ`
  gives, for each bootstrap replicate, the list of indices drawn (uniformly
  with replacement in the real code) into the data.
* External SciPy routines (`ttest_ind`, `ttest_1samp`, `mannwhitneyu`,
  `norm.ppf`, `norm.cdf`) are opaque parameters of the model: the repository
  only consumes their return values.
* Failures are explicit: `Except PyErr` replaces uncaught Python exceptions.
-/

/-- Python scalar values that can appear in the grouping column of the data
table and in the `idx` argument of `bootstrap_contrast` (an entry of `idx` may
be a group label or a positional integer index). -/
inductive PyVal where
  | pint (n : ℤ)
  | pstr (s : String)
deriving DecidableEq, Repr

/-- Python exceptions relevant to the modelled code paths.
`invalidInputError` models the `InvalidInputError` named by the spec; the
source never defines nor raises such an error, the constructor exists only so
that the spec's claims about it can be stated. `indexError` models Python's
`IndexError` (out-of-range list access); `valueError` models `ValueError`
(raised by `numpy.random.randint(0, 0, 0)` inside `seaborn.algorithms.bootstrap`
when the sample is empty). -/
inductive PyErr where
  | indexError
  | valueError
  | invalidInputError
deriving DecidableEq, Repr

/-- The two stability warnings issued by `bootstrap` / `bootstrap_contrast`
(lines 69-74 and 148-153): an extremal-sample warning ("Some values used
extremal samples") and a marginal-stability warning ("Some values used top 10
low/high samples"). -/
inductive StabWarning where
  | extremal
  | marginal
deriving DecidableEq, Repr

/-- Model of `numpy.round` on a scalar: round half to even. -/
def npRound (x : ℚ) : ℤ :=
  let f := ⌊x⌋
  let r := x - f
  if r < 1/2 then f
  else if 1/2 < r then f + 1
  else if f % 2 = 0 then f else f + 1

/-- Model of `numpy.mean` (the default `statfunction`).  On the empty list the
real code returns `NaN`; here `0/0 = 0`; the development only evaluates it on
nonempty lists. -/
def npMean (l : List ℚ) : ℚ := l.sum / (l.length : ℚ)

/-- Ascending sort, modelling `ndarray.sort()` / sorted bootstrap output. -/
def sortQ (l : List ℚ) : List ℚ := List.insertionSort (· ≤ ·) l

/-- Python list indexing `l[i]` with an integer index: negative indices wrap
around once, anything else out of range raises `IndexError`. -/
def pyGet (l : List ℚ) (i : ℤ) : Except PyErr ℚ :=
  if 0 ≤ i ∧ i < (l.length : ℤ) then .ok (l.getD i.toNat 0)
  else if -(l.length : ℤ) ≤ i ∧ i < 0 then .ok (l.getD (i + l.length).toNat 0)
  else .error .indexError

/-- Percentile index pair (lines 62-64 and 141-143):
`pct_low_high = np.round((reps-1)*alphas)` with `alphas = [alpha/2, 1-alpha/2]`,
then `np.nan_to_num(...).astype('int')`.  In exact arithmetic the rounded
values are never `NaN`, so `nan_to_num` is the identity, and the cast of an
integral float to int is exact. -/
def pctIndices (alpha : ℚ) (reps : ℕ) : ℤ × ℤ :=
  (npRound (((reps : ℚ) - 1) * (alpha / 2)),
   npRound (((reps : ℚ) - 1) * (1 - alpha / 2)))

/-- The `reps` bootstrap statistic values produced by
`sb.algorithms.bootstrap(data, func = statfunction, n_boot = reps, smooth = False)`
under resampling plan `draws`: replicate `k` applies `statfunction` to the
elements of `data` at positions `draws k`. -/
def sbStats (data : List ℚ) (statfunction : List ℚ → ℚ) (reps : ℕ)
    (draws : ℕ → List ℕ) : List ℚ :=
  (List.range reps).map fun k => statfunction ((draws k).map fun i => data.getD i 0)

/-- Model of `sb.algorithms.bootstrap` as called by the source (with the
default `smooth = False`).  Seaborn draws each resample's indices with
`numpy.random.randint(0, n, n)` where `n = len(data)`; when the sample is
empty, `randint(0, 0, 0)` raises `ValueError` ("low >= high"). -/
def sbBootstrap (data : List ℚ) (statfunction : List ℚ → ℚ) (reps : ℕ)
    (draws : ℕ → List ℕ) : Except PyErr (List ℚ) :=
  if data.isEmpty then .error .valueError
  else .ok (sbStats data statfunction reps draws)

/-- Modelled from the spec: leave-one-out (jackknife) replicates of the
statistic over the sample, used by the `bca` helper of `bootstrap_tools.py`
(imported at line 21 but the file is not under `src/`). -/
def jackknifeStats (data : List ℚ) (statfunction : List ℚ → ℚ) : List ℚ :=
  (List.range data.length).map fun i => statfunction (data.eraseIdx i)

/-- Modelled from the spec: the acceleration constant
`a = Σ(mean(jk)-jk_i)³ / (6 * (Σ(mean(jk)-jk_i)²)^1.5)` of the BCa method,
with the degenerate rule that `a = 0` when the denominator is zero (all
jackknife replicates identical).  The non-integer power `^1.5` is the opaque
parameter `pow15`. -/
def acceleration (jk : List ℚ) (pow15 : ℚ → ℚ) : ℚ :=
  let m := npMean jk
  let s2 := (jk.map fun v => (m - v) ^ 2).sum
  let s3 := (jk.map fun v => (m - v) ^ 3).sum
  if s2 = 0 then 0 else s3 / (6 * pow15 s2)

/-- Modelled from the spec: the `bca` helper of `bootstrap_tools.py` (missing
from `src/`; only its call sites at lines 67 and 146 are available).  Per spec
section 4.2: bias correction `z0 = Φ⁻¹(#{resample_i < point_estimate}/reps)`,
acceleration from the jackknife replicates over `data`, adjusted tail
probabilities `Φ(z0 + (z0 + z_alpha)/(1 - a*(z0 + z_alpha)))` for the two
tails, converted to indices exactly as the percentile method.  `ppf` models
`norm.ppf` (Φ⁻¹) and `cdf` models `norm.cdf` (Φ). -/
def bca (data : List ℚ) (alphas : ℚ × ℚ) (statarray : List ℚ)
    (statfunction : List ℚ → ℚ) (ostat : ℚ) (reps : ℕ)
    (ppf cdf pow15 : ℚ → ℚ) : ℤ × ℤ :=
  let z0 := ppf ((statarray.countP fun v => decide (v < ostat) : ℚ) / reps)
  let a := acceleration (jackknifeStats data statfunction) pow15
  let adj := fun tail : ℚ =>
    let zs := z0 + ppf tail
    cdf (z0 + zs / (1 - a * zs))
  (npRound (((reps : ℚ) - 1) * adj alphas.1),
   npRound (((reps : ℚ) - 1) * adj alphas.2))

/-- Warning emission for one index pair (lines 70-74): the extremal warning
when any index is `0` or `reps-1`, otherwise (`elif`) the marginal warning when
any index is `< 10` or `>= reps-10`. -/
def warnFor (reps : ℕ) (ind : ℤ × ℤ) : List StabWarning :=
  if ind.1 = 0 ∨ ind.2 = 0 ∨ ind.1 = (reps : ℤ) - 1 ∨ ind.2 = (reps : ℤ) - 1 then
    [.extremal]
  else if ind.1 < 10 ∨ ind.2 < 10 ∨ (reps : ℤ) - 10 ≤ ind.1 ∨ (reps : ℤ) - 10 ≤ ind.2 then
    [.marginal]
  else []

/-- Line 15 of the source: `warnings.filterwarnings("ignore")` is executed at
module import, installing a process-wide filter that ignores every warning. -/
def warnings_filter_ignore : Bool := true

/-- Which of the warnings passed to `warnings.warn` actually reach the caller:
under the module-level ignore filter, none do. -/
def surfacedWarnings (emitted : List StabWarning) : List StabWarning :=
  if warnings_filter_ignore then [] else emitted

/-- Result record of `bootstrap` (lines 76-87), an `OrderedDict` in the
source.  The purely textual `result['statistic'] = str(statfunction)` entry is
omitted. -/
structure BootResult where
  summary : ℚ
  bootstrap_reps : ℕ
  pct_ci_low : ℚ
  pct_ci_high : ℚ
  bca_ci_low : ℚ
  bca_ci_high : ℚ
  stat_array : List ℚ
  pct_low_high : ℤ × ℤ
  bca_low_high : ℤ × ℤ
deriving DecidableEq, Repr

/-- Model of `bootstrap(data, statfunction, smoothboot, alpha, reps)`
(lines 36-87), with the default `smoothboot = False`.  The pair returned with
the record collects the arguments of the `warnings.warn` calls (which the
module-level filter then suppresses, see `surfacedWarnings`). -/
def bootstrap (data : List ℚ) (statfunction : List ℚ → ℚ) (alpha : ℚ)
    (reps : ℕ) (draws : ℕ → List ℕ) (ppf cdf pow15 : ℚ → ℚ) :
    Except PyErr (BootResult × List StabWarning) :=
  let ostat := statfunction data
  match sbBootstrap data statfunction reps draws with
  | .error e => .error e
  | .ok arr0 =>
    let statarray := sortQ arr0
    let pct_low_high := pctIndices alpha reps
    let bca_low_high :=
      bca data (alpha / 2, 1 - alpha / 2) statarray statfunction ostat reps ppf cdf pow15
    let emitted := warnFor reps pct_low_high ++ warnFor reps bca_low_high
    match pyGet statarray pct_low_high.1, pyGet statarray pct_low_high.2,
          pyGet statarray bca_low_high.1, pyGet statarray bca_low_high.2 with
    | .ok pl, .ok ph, .ok bl, .ok bh =>
      .ok ({ summary := ostat
             bootstrap_reps := reps
             pct_ci_low := pl
             pct_ci_high := ph
             bca_ci_low := bl
             bca_ci_high := bh
             stat_array := statarray
             pct_low_high := pct_low_high
             bca_low_high := bca_low_high }, emitted)
    | .error e, _, _, _ => .error e
    | _, .error e, _, _ => .error e
    | _, _, .error e, _ => .error e
    | _, _, _, .error e => .error e

/-- Distinct values of a list in order of first appearance, modelling
`pandas.Series.unique()` (`levels = data[x].unique()`, line 109). -/
def uniqueFirst : List PyVal → List PyVal
  | [] => []
  | a :: rest => a :: uniqueFirst (rest.filter fun b => b ≠ a)
termination_by l => l.length
decreasing_by
  simpa using Nat.lt_succ_of_le (List.length_filter_le _ rest)

/-- Values of the `y` column over the rows whose `x` column equals `lv`,
modelling `np.array(data.ix[data[x] == lv][y])`.  A row is a pair
(group value, numeric value). -/
def pullColumn (rows : List (PyVal × ℚ)) (lv : PyVal) : List ℚ :=
  (rows.filter fun r => r.1 = lv).map Prod.snd

/-- One iteration of the selection loop of `bootstrap_contrast`
(lines 119-123).  `levels_to_idx` has the level values as keys, so
`i in levels_to_idx` is membership of `i` among the levels, and then
`levels[levels_to_idx[i]] = i` itself is used as the filter value.
`idx_to_levels` has keys `0 .. len(levels)-1`, so the `elif` fires when `i`
is an integer in that range, and filters on `levels[i]`.  Any other entry is
silently skipped (the loop appends nothing). -/
def selectGroup (rows : List (PyVal × ℚ)) (i : PyVal) : Option (List ℚ) :=
  let levels := uniqueFirst (rows.map Prod.fst)
  if i ∈ levels then some (pullColumn rows i)
  else
    match i with
    | .pint k =>
      if 0 ≤ k ∧ k < (levels.length : ℤ) then
        some (pullColumn rows (levels.getD k.toNat (.pint 0)))
      else none
    | .pstr _ => none

/-- The `arraylist` built by the loop at lines 118-123: entries of `idx` that
resolve to a group, in order, unresolvable entries silently dropped. -/
def buildArraylist (rows : List (PyVal × ℚ)) (idx : List PyVal) : List (List ℚ) :=
  idx.filterMap (selectGroup rows)

/-- Result record of `bootstrap_contrast` (lines 161-178), an `OrderedDict` in
the source.  The textual `result['statistic'] = str(statfunction)` entry is
omitted. -/
structure ContrastResult where
  summary : ℚ
  bootstrap_reps : ℕ
  pct_ci_low : ℚ
  pct_ci_high : ℚ
  bca_ci_low : ℚ
  bca_ci_high : ℚ
  diffarray : List ℚ
  pct_low_high : ℤ × ℤ
  bca_low_high : ℤ × ℤ
  statistic_ref : ℚ
  statistic_exp : ℚ
  ref_input : List ℚ
  test_input : List ℚ
  pvalue_ttest : ℚ
  pvalue_mannWhitney : ℚ
deriving DecidableEq, Repr

/-- Model of `bootstrap_contrast(data, idx, x, y, statfunction, smoothboot,
alpha, reps)` (lines 89-178), with the default `smoothboot = False`.

* `rows` is the data table restricted to its `x` (group) and `y` (value)
  columns; `idx.getD [pint 0, pint 1]` models the `if idx == None: idx = [0,1]`
  default (lines 103-104).
* `ref_array = arraylist[0]` and `exp_array = arraylist[1]` (lines 127-128)
  raise `IndexError` when fewer than two entries of `idx` resolved; extra
  resolved entries are silently ignored.
* `drawsRef`/`drawsExp` are the two independent resampling plans; `tt` models
  `scipy.stats.ttest_ind` and `mw` models `scipy.stats.mannwhitneyu`, each
  returning a (statistic, p-value) pair; the source stores `ttestresult[1]`
  unmodified and `mannwhitneyresult[1] * 2`.
* As in the source, the difference distribution is the elementwise
  `exp_statarray - ref_statarray`, sorted in place before `bca` sees it, and
  `ostat = statfunction(exp_array) - statfunction(ref_array)`. -/
def bootstrap_contrast (rows : List (PyVal × ℚ)) (idx : Option (List PyVal))
    (statfunction : List ℚ → ℚ) (alpha : ℚ) (reps : ℕ)
    (drawsRef drawsExp : ℕ → List ℕ) (ppf cdf pow15 : ℚ → ℚ)
    (tt mw : List ℚ → List ℚ → ℚ × ℚ) :
    Except PyErr (ContrastResult × List StabWarning) :=
  let idxL := idx.getD [PyVal.pint 0, PyVal.pint 1]
  let arraylist := buildArraylist rows idxL
  match arraylist.get? 0, arraylist.get? 1 with
  | some ref_array, some exp_array =>
    match sbBootstrap ref_array statfunction reps drawsRef,
          sbBootstrap exp_array statfunction reps drawsExp with
    | .ok ref_statarray, .ok exp_statarray =>
      let diff_array := sortQ (List.zipWith (fun a b => a - b) exp_statarray ref_statarray)
      let ostat := statfunction exp_array - statfunction ref_array
      let pct_low_high := pctIndices alpha reps
      let bca_low_high :=
        bca diff_array (alpha / 2, 1 - alpha / 2) diff_array statfunction ostat reps
          ppf cdf pow15
      let emitted := warnFor reps pct_low_high ++ warnFor reps bca_low_high
      match pyGet diff_array pct_low_high.1, pyGet diff_array pct_low_high.2,
            pyGet diff_array bca_low_high.1, pyGet diff_array bca_low_high.2 with
      | .ok pl, .ok ph, .ok bl, .ok bh =>
        .ok ({ summary := ostat
               bootstrap_reps := reps
               pct_ci_low := pl
               pct_ci_high := ph
               bca_ci_low := bl
               bca_ci_high := bh
               diffarray := diff_array
               pct_low_high := pct_low_high
               bca_low_high := bca_low_high
               statistic_ref := statfunction ref_array
               statistic_exp := statfunction exp_array
               ref_input := ref_array
               test_input := exp_array
               pvalue_ttest := (tt ref_array exp_array).2
               pvalue_mannWhitney := (mw ref_array exp_array).2 * 2 }, emitted)
      | .error e, _, _, _ => .error e
      | _, .error e, _, _ => .error e
      | _, _, .error e, _ => .error e
      | _, _, _, .error e => .error e
    | .error e, _ => .error e
    | _, .error e => .error e
  | _, _ => .error .indexError

/-- Result of the statistical part of `pairedcontrast`: the `bootsDelta`
dictionary returned by `bootstrap` on the deltas, extended in place with the
`ttest_pval` entry (line 1360). -/
structure PairedResult where
  boots : BootResult
  ttest_pval : ℚ
deriving DecidableEq, Repr

/-- Model of the statistical core of `pairedcontrast` (lines 1243-1256 and
1357-1360); the plotting glue around it is out of the spec's scope.  `pairs`
is the per-subject aligned (before, after) table obtained from
`data.pivot_table(index = idcol, columns = x, values = y)`; the source
computes `plotPoints['delta_y'] = plotPoints[xlevs[1]] - plotPoints[xlevs[0]]`
(after minus before), runs the single-sample `bootstrap` on that delta
sequence, and attaches `ttest_1samp(plotPoints['delta_y'], popmean = 0)[1]`.
`tt1` models `scipy.stats.ttest_1samp` as a (statistic, p-value) pair. -/
def pairedcontrast (pairs : List (ℚ × ℚ)) (statfunction : List ℚ → ℚ)
    (alpha : ℚ) (reps : ℕ) (draws : ℕ → List ℕ) (ppf cdf pow15 : ℚ → ℚ)
    (tt1 : List ℚ → ℚ → ℚ × ℚ) :
    Except PyErr (PairedResult × List StabWarning) :=
  let delta_y := pairs.map fun p => p.2 - p.1
  match bootstrap delta_y statfunction alpha reps draws ppf cdf pow15 with
  | .error e => .error e
  | .ok (bootsDelta, emitted) =>
    .ok ({ boots := bootsDelta, ttest_pval := (tt1 delta_y 0).2 }, emitted)

/-! ### Helper lemmas -/

lemma floor_le_npRound (x : ℚ) : ⌊x⌋ ≤ npRound x := by
  unfold npRound
  dsimp only
  split_ifs <;> omega

lemma npRound_le_ceil (x : ℚ) : npRound x ≤ ⌈x⌉ := by
  have hfc : ⌊x⌋ ≤ ⌈x⌉ := Int.floor_le_ceil x
  have hstep : (1/2 : ℚ) ≤ x - ⌊x⌋ → ⌊x⌋ + 1 ≤ ⌈x⌉ := by
    intro hhalf
    have hx : (⌊x⌋ : ℚ) < x := by linarith
    exact Int.lt_ceil.mpr hx
  unfold npRound
  dsimp only
  split_ifs with h1 h2 h3
  · exact hfc
  · exact hstep (le_of_lt h2)
  · exact hfc
  · exact hstep (by linarith)

lemma npRound_nonneg {x : ℚ} (h : 0 ≤ x) : 0 ≤ npRound x :=
  le_trans (Int.floor_nonneg.mpr h) (floor_le_npRound x)

lemma npRound_le_of_le {x : ℚ} {B : ℤ} (h : x ≤ (B : ℚ)) : npRound x ≤ B :=
  le_trans (npRound_le_ceil x) (Int.ceil_le.mpr h)

lemma npRound_mono {x y : ℚ} (h : x ≤ y) : npRound x ≤ npRound y := by
  have hf : ⌊x⌋ ≤ ⌊y⌋ := Int.floor_le_floor h
  rcases eq_or_lt_of_le hf with heq | hlt
  · unfold npRound
    dsimp only
    rw [heq]
    have hr : x - ⌊y⌋ ≤ y - ⌊y⌋ := by
      rw [← heq]; linarith
    split_ifs <;> first | omega | linarith
  · calc npRound x ≤ ⌈x⌉ := npRound_le_ceil x
      _ ≤ ⌊x⌋ + 1 := Int.ceil_le_floor_add_one x
      _ ≤ ⌊y⌋ := hlt
      _ ≤ npRound y := floor_le_npRound y

lemma pctIndices_bounds {alpha : ℚ} {reps : ℕ} (h0 : 0 < alpha) (h1 : alpha < 1)
    (hr : 1 ≤ reps) :
    0 ≤ (pctIndices alpha reps).1 ∧
      (pctIndices alpha reps).1 ≤ (pctIndices alpha reps).2 ∧
      (pctIndices alpha reps).2 ≤ (reps : ℤ) - 1 := by
  have hN : (0 : ℚ) ≤ (reps : ℚ) - 1 := by
    have : (1 : ℚ) ≤ (reps : ℚ) := by exact_mod_cast hr
    linarith
  refine ⟨npRound_nonneg (mul_nonneg hN (by linarith)), npRound_mono ?_, npRound_le_of_le ?_⟩
  · exact mul_le_mul_of_nonneg_left (by linarith) hN
  · push_cast
    nlinarith

lemma bca_bounds (data : List ℚ) (alphas : ℚ × ℚ) (statarray : List ℚ)
    (statfunction : List ℚ → ℚ) (ostat : ℚ) (reps : ℕ) (ppf cdf pow15 : ℚ → ℚ)
    (hcdf : ∀ x, 0 ≤ cdf x ∧ cdf x ≤ 1) (hr : 1 ≤ reps) :
    (0 ≤ (bca data alphas statarray statfunction ostat reps ppf cdf pow15).1 ∧
      (bca data alphas statarray statfunction ostat reps ppf cdf pow15).1 ≤ (reps : ℤ) - 1) ∧
    (0 ≤ (bca data alphas statarray statfunction ostat reps ppf cdf pow15).2 ∧
      (bca data alphas statarray statfunction ostat reps ppf cdf pow15).2 ≤ (reps : ℤ) - 1) := by
  have hN : (0 : ℚ) ≤ (reps : ℚ) - 1 := by
    have : (1 : ℚ) ≤ (reps : ℚ) := by exact_mod_cast hr
    linarith
  have key : ∀ z : ℚ, 0 ≤ npRound (((reps : ℚ) - 1) * cdf z) ∧
      npRound (((reps : ℚ) - 1) * cdf z) ≤ (reps : ℤ) - 1 := by
    intro z
    obtain ⟨hc0, hc1⟩ := hcdf z
    constructor
    · exact npRound_nonneg (mul_nonneg hN hc0)
    · refine npRound_le_of_le ?_
      push_cast
      nlinarith
  unfold bca
  exact ⟨key _, key _⟩

lemma pyGet_of_range {l : List ℚ} {i : ℤ} (h0 : 0 ≤ i) (h1 : i < (l.length : ℤ)) :
    pyGet l i = .ok (l.getD i.toNat 0) := by
  unfold pyGet
  rw [if_pos ⟨h0, h1⟩]

lemma sortQ_sorted (l : List ℚ) : List.Sorted (· ≤ ·) (sortQ l) :=
  List.sorted_insertionSort _ l

lemma sortQ_perm (l : List ℚ) : List.Perm (sortQ l) l :=
  List.perm_insertionSort _ l

lemma sortQ_length (l : List ℚ) : (sortQ l).length = l.length :=
  (sortQ_perm l).length_eq

lemma sbStats_length (data : List ℚ) (statfunction : List ℚ → ℚ) (reps : ℕ)
    (draws : ℕ → List ℕ) : (sbStats data statfunction reps draws).length = reps := by
  simp [sbStats]

lemma getD_replicate {n k : ℕ} {c : ℚ} (h : k < n) :
    (List.replicate n c).getD k 0 = c := by
  rw [List.getD_eq_getElem?_getD, List.getElem?_eq_getElem (by simpa using h)]
  simp

lemma sortQ_replicate (n : ℕ) (c : ℚ) : sortQ (List.replicate n c) = List.replicate n c := by
  refine List.eq_replicate_iff.mpr ⟨by rw [sortQ_length, List.length_replicate], ?_⟩
  intro b hb
  have := (sortQ_perm (List.replicate n c)).mem_iff.mp hb
  exact List.eq_of_mem_replicate this

lemma bootstrap_eval (data : List ℚ) (statfunction : List ℚ → ℚ) (alpha : ℚ)
    (reps : ℕ) (draws : ℕ → List ℕ) (ppf cdf pow15 : ℚ → ℚ)
    (hne : data ≠ []) (h0 : 0 < alpha) (h1 : alpha < 1) (hr : 1 ≤ reps)
    (hcdf : ∀ x, 0 ≤ cdf x ∧ cdf x ≤ 1) :
    bootstrap data statfunction alpha reps draws ppf cdf pow15 =
      .ok ({ summary := statfunction data
             bootstrap_reps := reps
             pct_ci_low := (sortQ (sbStats data statfunction reps draws)).getD
               (pctIndices alpha reps).1.toNat 0
             pct_ci_high := (sortQ (sbStats data statfunction reps draws)).getD
               (pctIndices alpha reps).2.toNat 0
             bca_ci_low := (sortQ (sbStats data statfunction reps draws)).getD
               (bca data (alpha / 2, 1 - alpha / 2)
                 (sortQ (sbStats data statfunction reps draws)) statfunction
                 (statfunction data) reps ppf cdf pow15).1.toNat 0
             bca_ci_high := (sortQ (sbStats data statfunction reps draws)).getD
               (bca data (alpha / 2, 1 - alpha / 2)
                 (sortQ (sbStats data statfunction reps draws)) statfunction
                 (statfunction data) reps ppf cdf pow15).2.toNat 0
             stat_array := sortQ (sbStats data statfunction reps draws)
             pct_low_high := pctIndices alpha reps
             bca_low_high := bca data (alpha / 2, 1 - alpha / 2)
               (sortQ (sbStats data statfunction reps draws)) statfunction
               (statfunction data) reps ppf cdf pow15 },
           warnFor reps (pctIndices alpha reps) ++
             warnFor reps (bca data (alpha / 2, 1 - alpha / 2)
               (sortQ (sbStats data statfunction reps draws)) statfunction
               (statfunction data) reps ppf cdf pow15)) := by
  have hsb : sbBootstrap data statfunction reps draws =
      .ok (sbStats data statfunction reps draws) := by
    simp [sbBootstrap, hne]
  have hlen : ((sortQ (sbStats data statfunction reps draws)).length : ℤ) = (reps : ℤ) := by
    rw [sortQ_length, sbStats_length]
  obtain ⟨hp0, hp12, hp2⟩ := pctIndices_bounds h0 h1 hr
  obtain ⟨⟨hb10, hb11⟩, hb20, hb21⟩ := bca_bounds data (alpha / 2, 1 - alpha / 2)
    (sortQ (sbStats data statfunction reps draws)) statfunction (statfunction data)
    reps ppf cdf pow15 hcdf hr
  have hrz : (1 : ℤ) ≤ (reps : ℤ) := by exact_mod_cast hr
  unfold bootstrap
  rw [hsb]
  dsimp only
  rw [pyGet_of_range hp0 (by omega), pyGet_of_range (le_trans hp0 hp12) (by omega),
    pyGet_of_range hb10 (by omega), pyGet_of_range hb20 (by omega)]

lemma contrast_eval (rows : List (PyVal × ℚ)) (idx : Option (List PyVal))
    (statfunction : List ℚ → ℚ) (alpha : ℚ) (reps : ℕ)
    (drawsRef drawsExp : ℕ → List ℕ) (ppf cdf pow15 : ℚ → ℚ)
    (tt mw : List ℚ → List ℚ → ℚ × ℚ) (ref_array exp_array : List ℚ)
    (h0 : (buildArraylist rows (idx.getD [PyVal.pint 0, PyVal.pint 1])).get? 0 = some ref_array)
    (h1 : (buildArraylist rows (idx.getD [PyVal.pint 0, PyVal.pint 1])).get? 1 = some exp_array)
    (href : ref_array ≠ []) (hexp : exp_array ≠ [])
    (ha0 : 0 < alpha) (ha1 : alpha < 1) (hr : 1 ≤ reps)
    (hcdf : ∀ x, 0 ≤ cdf x ∧ cdf x ≤ 1) :
    bootstrap_contrast rows idx statfunction alpha reps drawsRef drawsExp ppf cdf pow15 tt mw =
      .ok ({ summary := statfunction exp_array - statfunction ref_array
             bootstrap_reps := reps
             pct_ci_low := (sortQ (List.zipWith (fun a b => a - b)
                 (sbStats exp_array statfunction reps drawsExp)
                 (sbStats ref_array statfunction reps drawsRef))).getD
               (pctIndices alpha reps).1.toNat 0
             pct_ci_high := (sortQ (List.zipWith (fun a b => a - b)
                 (sbStats exp_array statfunction reps drawsExp)
                 (sbStats ref_array statfunction reps drawsRef))).getD
               (pctIndices alpha reps).2.toNat 0
             bca_ci_low := (sortQ (List.zipWith (fun a b => a - b)
                 (sbStats exp_array statfunction reps drawsExp)
                 (sbStats ref_array statfunction reps drawsRef))).getD
               (bca (sortQ (List.zipWith (fun a b => a - b)
                   (sbStats exp_array statfunction reps drawsExp)
                   (sbStats ref_array statfunction reps drawsRef)))
                 (alpha / 2, 1 - alpha / 2)
                 (sortQ (List.zipWith (fun a b => a - b)
                   (sbStats exp_array statfunction reps drawsExp)
                   (sbStats ref_array statfunction reps drawsRef)))
                 statfunction (statfunction exp_array - statfunction ref_array) reps
                 ppf cdf pow15).1.toNat 0
             bca_ci_high := (sortQ (List.zipWith (fun a b => a - b)
                 (sbStats exp_array statfunction reps drawsExp)
                 (sbStats ref_array statfunction reps drawsRef))).getD
               (bca (sortQ (List.zipWith (fun a b => a - b)
                   (sbStats exp_array statfunction reps drawsExp)
                   (sbStats ref_array statfunction reps drawsRef)))
                 (alpha / 2, 1 - alpha / 2)
                 (sortQ (List.zipWith (fun a b => a - b)
                   (sbStats exp_array statfunction reps drawsExp)
                   (sbStats ref_array statfunction reps drawsRef)))
                 statfunction (statfunction exp_array - statfunction ref_array) reps
                 ppf cdf pow15).2.toNat 0
             diffarray := sortQ (List.zipWith (fun a b => a - b)
               (sbStats exp_array statfunction reps drawsExp)
               (sbStats ref_array statfunction reps drawsRef))
             pct_low_high := pctIndices alpha reps
             bca_low_high := bca (sortQ (List.zipWith (fun a b => a - b)
                 (sbStats exp_array statfunction reps drawsExp)
                 (sbStats ref_array statfunction reps drawsRef)))
               (alpha / 2, 1 - alpha / 2)
               (sortQ (List.zipWith (fun a b => a - b)
                 (sbStats exp_array statfunction reps drawsExp)
                 (sbStats ref_array statfunction reps drawsRef)))
               statfunction (statfunction exp_array - statfunction ref_array) reps
               ppf cdf pow15
             statistic_ref := statfunction ref_array
             statistic_exp := statfunction exp_array
             ref_input := ref_array
             test_input := exp_array
             pvalue_ttest := (tt ref_array exp_array).2
             pvalue_mannWhitney := (mw ref_array exp_array).2 * 2 },
           warnFor reps (pctIndices alpha reps) ++
             warnFor reps (bca (sortQ (List.zipWith (fun a b => a - b)
                 (sbStats exp_array statfunction reps drawsExp)
                 (sbStats ref_array statfunction reps drawsRef)))
               (alpha / 2, 1 - alpha / 2)
               (sortQ (List.zipWith (fun a b => a - b)
                 (sbStats exp_array statfunction reps drawsExp)
                 (sbStats ref_array statfunction reps drawsRef)))
               statfunction (statfunction exp_array - statfunction ref_array) reps
               ppf cdf pow15)) := by
  have hsbr : sbBootstrap ref_array statfunction reps drawsRef =
      .ok (sbStats ref_array statfunction reps drawsRef) := by
    simp [sbBootstrap, href]
  have hsbe : sbBootstrap exp_array statfunction reps drawsExp =
      .ok (sbStats exp_array statfunction reps drawsExp) := by
    simp [sbBootstrap, hexp]
  have hlen : ((sortQ (List.zipWith (fun a b => a - b)
      (sbStats exp_array statfunction reps drawsExp)
      (sbStats ref_array statfunction reps drawsRef))).length : ℤ) = (reps : ℤ) := by
    rw [sortQ_length, List.length_zipWith, sbStats_length, sbStats_length]
    simp
  obtain ⟨hp0, hp12, hp2⟩ := pctIndices_bounds ha0 ha1 hr
  obtain ⟨⟨hb10, hb11⟩, hb20, hb21⟩ := bca_bounds
    (sortQ (List.zipWith (fun a b => a - b)
      (sbStats exp_array statfunction reps drawsExp)
      (sbStats ref_array statfunction reps drawsRef)))
    (alpha / 2, 1 - alpha / 2)
    (sortQ (List.zipWith (fun a b => a - b)
      (sbStats exp_array statfunction reps drawsExp)
      (sbStats ref_array statfunction reps drawsRef)))
    statfunction (statfunction exp_array - statfunction ref_array) reps ppf cdf pow15
    hcdf hr
  have hrz : (1 : ℤ) ≤ (reps : ℤ) := by exact_mod_cast hr
  unfold bootstrap_contrast
  dsimp only
  rw [h0, h1]
  dsimp only
  rw [hsbr, hsbe]
  dsimp only
  rw [pyGet_of_range hp0 (by omega), pyGet_of_range (le_trans hp0 hp12) (by omega),
    pyGet_of_range hb10 (by omega), pyGet_of_range hb20 (by omega)]

/-- The condition under which the source's warning loop issues at least one
warning for an index: the index is extremal (`0` or `reps-1`) or in the outer
10 samples of a tail (`< 10` or `>= reps-10`). -/
def outerTailIdx (reps : ℕ) (i : ℤ) : Prop :=
  i = 0 ∨ i = (reps : ℤ) - 1 ∨ i < 10 ∨ (reps : ℤ) - 10 ≤ i

instance (reps : ℕ) (i : ℤ) : Decidable (outerTailIdx reps i) := by
  unfold outerTailIdx
  infer_instance

lemma warnFor_ne_nil_iff (reps : ℕ) (ind : ℤ × ℤ) :
    warnFor reps ind ≠ [] ↔ outerTailIdx reps ind.1 ∨ outerTailIdx reps ind.2 := by
  unfold warnFor outerTailIdx
  split_ifs with h1 h2 <;> simp <;> omega

lemma getD_reverse {l : List ℚ} {i : ℕ} (h : i < l.length) :
    l.reverse.getD i 0 = l.getD (l.length - 1 - i) 0 := by
  rw [List.getD_eq_getElem?_getD, List.getD_eq_getElem?_getD,
    List.getElem?_eq_getElem (by simpa using h), List.getElem?_eq_getElem (by omega)]
  simp [List.getElem_reverse]

lemma zipWith_sub_comm (a b : List ℚ) :
    List.zipWith (fun x y => x - y) a b =
      (List.zipWith (fun x y => x - y) b a).map fun x => -x := by
  induction a generalizing b with
  | nil => cases b <;> simp
  | cons x xs ih =>
    cases b with
    | nil => simp
    | cons y ys => simp [ih ys, neg_sub]

lemma sortQ_map_neg (l : List ℚ) :
    sortQ (l.map fun x => -x) = ((sortQ l).map fun x => -x).reverse := by
  have hperm : List.Perm (sortQ (l.map fun x => -x)) (((sortQ l).map fun x => -x).reverse) := by
    refine (sortQ_perm _).trans (((sortQ_perm l).symm.map _).trans ?_)
    exact (List.reverse_perm _).symm
  have hs2 : List.Sorted (· ≤ ·) (((sortQ l).map fun x => -x).reverse) := by
    rw [List.Sorted, List.pairwise_reverse]
    refine (List.pairwise_map).mpr ?_
    exact (sortQ_sorted l).imp fun hab => neg_le_neg hab
  exact List.eq_of_perm_of_sorted hperm (sortQ_sorted _) hs2

lemma mem_uniqueFirst (a : PyVal) (l : List PyVal) : a ∈ uniqueFirst l ↔ a ∈ l := by
  induction l using uniqueFirst.induct with
  | case1 => simp [uniqueFirst]
  | case2 b rest ih =>
    rw [uniqueFirst]
    by_cases hab : a = b
    · simp [hab]
    · simp only [List.mem_cons, ih, List.mem_filter]
      constructor
      · rintro (h | ⟨h, _⟩)
        · exact Or.inl h
        · exact Or.inr h
      · rintro (h | h)
        · exact Or.inl h
        · exact Or.inr ⟨h, by simpa using hab⟩

lemma pullColumn_ne_nil {rows : List (PyVal × ℚ)} {lv : PyVal}
    (h : lv ∈ rows.map Prod.fst) : pullColumn rows lv ≠ [] := by
  obtain ⟨r, hr, hfst⟩ := List.mem_map.mp h
  unfold pullColumn
  intro hc
  rw [List.map_eq_nil_iff, List.filter_eq_nil_iff] at hc
  exact hc r hr (by simp [hfst])

lemma selectGroup_of_mem {rows : List (PyVal × ℚ)} {i : PyVal}
    (h : i ∈ uniqueFirst (rows.map Prod.fst)) :
    selectGroup rows i = some (pullColumn rows i) := by
  unfold selectGroup
  rw [if_pos h]

/-- Clamped identity on `[0, 1]`: a concrete executable stand-in for the
standard normal CDF when instantiating the abstract `cdf` parameter on
concrete inputs (any function with range inside `[0, 1]` works). -/
def clamp01 (x : ℚ) : ℚ := if x < 0 then 0 else if 1 < x then 1 else x

lemma clamp01_range (x : ℚ) : 0 ≤ clamp01 x ∧ clamp01 x ≤ 1 := by
  unfold clamp01
  split_ifs <;> constructor <;> linarith

lemma npMean_replicate {n : ℕ} (hn : n ≠ 0) (c : ℚ) :
    npMean (List.replicate n c) = c := by
  have h : ((n : ℚ)) ≠ 0 := by exact_mod_cast hn
  simp [npMean, List.sum_replicate, nsmul_eq_mul]
  field_simp

lemma zipWith_sub_replicate (n : ℕ) (a b : ℚ) :
    List.zipWith (fun x y => x - y) (List.replicate n a) (List.replicate n b) =
      List.replicate n (a - b) := by
  induction n with
  | zero => rfl
  | succ m ih => simp [List.replicate_succ, ih]

lemma getD_map_neg {l : List ℚ} {k : ℕ} (h : k < l.length) :
    (l.map fun x => -x).getD k 0 = -(l.getD k 0) := by
  rw [List.getD_eq_getElem?_getD, List.getD_eq_getElem?_getD,
    List.getElem?_eq_getElem (by simpa using h), List.getElem?_eq_getElem h]
  simp

lemma getD_mem_of_lt {l : List PyVal} {k : ℕ} {d : PyVal} (h : k < l.length) :
    l.getD k d ∈ l := by
  rw [List.getD_eq_getElem?_getD, List.getElem?_eq_getElem h]
  exact List.getElem_mem h

lemma selectGroup_pint_pos {rows : List (PyVal × ℚ)} {k : ℤ}
    (hnm : PyVal.pint k ∉ uniqueFirst (rows.map Prod.fst))
    (h0 : 0 ≤ k) (hk : k < ((uniqueFirst (rows.map Prod.fst)).length : ℤ)) :
    selectGroup rows (.pint k) =
      some (pullColumn rows ((uniqueFirst (rows.map Prod.fst)).getD k.toNat (.pint 0))) := by
  unfold selectGroup
  rw [if_neg hnm]
  dsimp only
  rw [if_pos ⟨h0, hk⟩]

/-! ### Claims -/

/-- C2: for every `alpha` in `(0,1)` and every `reps ≥ 1`, the percentile CI
indices are `round((reps-1)*alpha/2)` and `round((reps-1)*(1-alpha/2))` (the
NaN-to-0 guard being the identity in exact arithmetic), and the resulting pair
satisfies `0 ≤ low ≤ high ≤ reps-1`, so indexing the sorted distribution of
length `reps` is in range. -/
theorem C2_percentile_index_bounds (alpha : ℚ) (reps : ℕ)
    (h0 : 0 < alpha) (h1 : alpha < 1) (hr : 1 ≤ reps) :
    pctIndices alpha reps =
      (npRound (((reps : ℚ) - 1) * (alpha / 2)),
        npRound (((reps : ℚ) - 1) * (1 - alpha / 2))) ∧
    0 ≤ (pctIndices alpha reps).1 ∧
    (pctIndices alpha reps).1 ≤ (pctIndices alpha reps).2 ∧
    (pctIndices alpha reps).2 ≤ (reps : ℤ) - 1 ∧
    ∀ l : List ℚ, l.length = reps →
      (pyGet l (pctIndices alpha reps).1).isOk ∧ (pyGet l (pctIndices alpha reps).2).isOk := by
  obtain ⟨ha, hb, hc⟩ := pctIndices_bounds h0 h1 hr
  have hrz : (1 : ℤ) ≤ (reps : ℤ) := by exact_mod_cast hr
  refine ⟨rfl, ha, hb, hc, ?_⟩
  intro l hl
  have hlen : ((l.length : ℤ)) = (reps : ℤ) := by exact_mod_cast hl
  rw [pyGet_of_range ha (by omega), pyGet_of_range (le_trans ha hb) (by omega)]
  exact ⟨rfl, rfl⟩

/-- Witness for C2 at `alpha = 1/20`, `reps = 3000`. -/
theorem C2_percentile_index_bounds_witness :
    (0 < (1/20 : ℚ) ∧ (1/20 : ℚ) < 1 ∧ 1 ≤ 3000) ∧
    (pctIndices (1/20) 3000 =
      (npRound (((3000 : ℚ) - 1) * ((1/20) / 2)),
        npRound (((3000 : ℚ) - 1) * (1 - (1/20) / 2))) ∧
    0 ≤ (pctIndices (1/20) 3000).1 ∧
    (pctIndices (1/20) 3000).1 ≤ (pctIndices (1/20) 3000).2 ∧
    (pctIndices (1/20) 3000).2 ≤ (3000 : ℤ) - 1 ∧
    ∀ l : List ℚ, l.length = 3000 →
      (pyGet l (pctIndices (1/20) 3000).1).isOk ∧ (pyGet l (pctIndices (1/20) 3000).2).isOk) :=
  ⟨⟨by norm_num, by norm_num, by norm_num⟩,
    C2_percentile_index_bounds (1/20) 3000 (by norm_num) (by norm_num) (by norm_num)⟩

/-- C4 counterexample: on the empty sample, `bootstrap` fails with the
library's `ValueError` (from the resampling call), not with the
`InvalidInputError` that the claim names; no such validation error exists in
the code. -/
theorem C4_counterexample :
    bootstrap [] npMean (1/20) 3000 (fun _ => []) id id id = .error .valueError ∧
      PyErr.valueError ≠ PyErr.invalidInputError := by
  exact ⟨rfl, by decide⟩

/-- C4 amended: for every empty input sample (and any statistic, alpha, reps,
resampling plan and library functions), `bootstrap` fails — with the
uncaught `ValueError` raised inside `seaborn.algorithms.bootstrap` by
`numpy.random.randint(0, 0, 0)` — before any result record is built, so no
partial result is returned; but the failure is not an `InvalidInputError`
(the source defines no such error and performs no input validation). -/
theorem C4_empty_sample_fails_with_valueerror (statfunction : List ℚ → ℚ)
    (alpha : ℚ) (reps : ℕ) (draws : ℕ → List ℕ) (ppf cdf pow15 : ℚ → ℚ) :
    bootstrap [] statfunction alpha reps draws ppf cdf pow15 = .error .valueError := by
  rfl

/-- Concrete two-group table used to instantiate contrast theorems: group "a"
holds values 1, 2 and group "b" holds value 5. -/
def witnessRows : List (PyVal × ℚ) := [(.pstr "a", 1), (.pstr "a", 2), (.pstr "b", 5)]

/-- C1: for every unpaired two-group contrast (any table, group selection that
resolves, statistic, valid alpha/reps and resampling plans), the difference
distribution is the elementwise subtraction `exp_statarray - ref_statarray` of
the two length-`reps` resample statistic arrays, sorted non-decreasing, and
the returned `summary` equals `statfunction(exp) - statfunction(ref)` computed
on the raw groups — an expression independent of the resampling plans. -/
theorem C1_difference_distribution (rows : List (PyVal × ℚ))
    (idx : Option (List PyVal)) (statfunction : List ℚ → ℚ) (alpha : ℚ)
    (reps : ℕ) (drawsRef drawsExp : ℕ → List ℕ) (ppf cdf pow15 : ℚ → ℚ)
    (tt mw : List ℚ → List ℚ → ℚ × ℚ) (ref_array exp_array : List ℚ)
    (h0 : (buildArraylist rows (idx.getD [PyVal.pint 0, PyVal.pint 1])).get? 0 = some ref_array)
    (h1 : (buildArraylist rows (idx.getD [PyVal.pint 0, PyVal.pint 1])).get? 1 = some exp_array)
    (href : ref_array ≠ []) (hexp : exp_array ≠ [])
    (ha0 : 0 < alpha) (ha1 : alpha < 1) (hr : 1 ≤ reps)
    (hcdf : ∀ x, 0 ≤ cdf x ∧ cdf x ≤ 1) :
    ∃ r w, bootstrap_contrast rows idx statfunction alpha reps drawsRef drawsExp
        ppf cdf pow15 tt mw = .ok (r, w) ∧
      (sbStats ref_array statfunction reps drawsRef).length = reps ∧
      (sbStats exp_array statfunction reps drawsExp).length = reps ∧
      r.diffarray = sortQ (List.zipWith (fun a b => a - b)
        (sbStats exp_array statfunction reps drawsExp)
        (sbStats ref_array statfunction reps drawsRef)) ∧
      List.Sorted (· ≤ ·) r.diffarray ∧
      r.diffarray.length = reps ∧
      r.summary = statfunction exp_array - statfunction ref_array := by
  refine ⟨_, _, contrast_eval rows idx statfunction alpha reps drawsRef drawsExp
    ppf cdf pow15 tt mw ref_array exp_array h0 h1 href hexp ha0 ha1 hr hcdf,
    sbStats_length _ _ _ _, sbStats_length _ _ _ _, rfl, ?_, ?_, rfl⟩
  · exact sortQ_sorted _
  · show (sortQ _).length = reps
    rw [sortQ_length, List.length_zipWith, sbStats_length, sbStats_length, min_self]

/-- Witness for C1 on `witnessRows` with the mean statistic, `alpha = 1/20`,
`reps = 2`. -/
theorem C1_difference_distribution_witness :
    ((buildArraylist witnessRows ((none : Option (List PyVal)).getD
        [PyVal.pint 0, PyVal.pint 1])).get? 0 = some [1, 2] ∧
      (buildArraylist witnessRows ((none : Option (List PyVal)).getD
        [PyVal.pint 0, PyVal.pint 1])).get? 1 = some [5] ∧
      ([1, 2] : List ℚ) ≠ [] ∧ ([5] : List ℚ) ≠ [] ∧
      (0 : ℚ) < 1/20 ∧ (1/20 : ℚ) < 1 ∧ 1 ≤ 2 ∧
      (∀ x, 0 ≤ clamp01 x ∧ clamp01 x ≤ 1)) ∧
    (∃ r w, bootstrap_contrast witnessRows none npMean (1/20) 2 (fun _ => [0])
        (fun _ => [0]) id clamp01 id (fun _ _ => (0, 1)) (fun _ _ => (0, 1)) = .ok (r, w) ∧
      (sbStats [1, 2] npMean 2 fun _ => [0]).length = 2 ∧
      (sbStats [5] npMean 2 fun _ => [0]).length = 2 ∧
      r.diffarray = sortQ (List.zipWith (fun a b => a - b)
        (sbStats [5] npMean 2 fun _ => [0]) (sbStats [1, 2] npMean 2 fun _ => [0])) ∧
      List.Sorted (· ≤ ·) r.diffarray ∧
      r.diffarray.length = 2 ∧
      r.summary = npMean [5] - npMean [1, 2]) :=
  ⟨⟨by simp +decide [witnessRows, buildArraylist, selectGroup, uniqueFirst, pullColumn],
    by simp +decide [witnessRows, buildArraylist, selectGroup, uniqueFirst, pullColumn],
    by simp, by simp, by norm_num, by norm_num, by norm_num, clamp01_range⟩,
    C1_difference_distribution witnessRows none npMean (1/20) 2 (fun _ => [0])
      (fun _ => [0]) id clamp01 id (fun _ _ => (0, 1)) (fun _ _ => (0, 1)) [1, 2] [5]
      (by simp +decide [witnessRows, buildArraylist, selectGroup, uniqueFirst, pullColumn])
      (by simp +decide [witnessRows, buildArraylist, selectGroup, uniqueFirst, pullColumn])
      (by simp) (by simp) (by norm_num) (by norm_num) (by norm_num) clamp01_range⟩

/-- C5: for every two-group contrast, the returned `pvalue_mannWhitney` equals
exactly 2 times the p-value returned by the library's Mann-Whitney test on the
two raw groups, while `pvalue_ttest` is the library's independent-samples
t-test p-value taken unmodified. -/
theorem C5_pvalue_doubling (rows : List (PyVal × ℚ))
    (idx : Option (List PyVal)) (statfunction : List ℚ → ℚ) (alpha : ℚ)
    (reps : ℕ) (drawsRef drawsExp : ℕ → List ℕ) (ppf cdf pow15 : ℚ → ℚ)
    (tt mw : List ℚ → List ℚ → ℚ × ℚ) (ref_array exp_array : List ℚ)
    (h0 : (buildArraylist rows (idx.getD [PyVal.pint 0, PyVal.pint 1])).get? 0 = some ref_array)
    (h1 : (buildArraylist rows (idx.getD [PyVal.pint 0, PyVal.pint 1])).get? 1 = some exp_array)
    (href : ref_array ≠ []) (hexp : exp_array ≠ [])
    (ha0 : 0 < alpha) (ha1 : alpha < 1) (hr : 1 ≤ reps)
    (hcdf : ∀ x, 0 ≤ cdf x ∧ cdf x ≤ 1) :
    ∃ r w, bootstrap_contrast rows idx statfunction alpha reps drawsRef drawsExp
        ppf cdf pow15 tt mw = .ok (r, w) ∧
      r.pvalue_mannWhitney = 2 * (mw ref_array exp_array).2 ∧
      r.pvalue_ttest = (tt ref_array exp_array).2 := by
  refine ⟨_, _, contrast_eval rows idx statfunction alpha reps drawsRef drawsExp
    ppf cdf pow15 tt mw ref_array exp_array h0 h1 href hexp ha0 ha1 hr hcdf, ?_, rfl⟩
  exact mul_comm _ _

/-- Witness for C5 on `witnessRows` with concrete library stand-ins returning
p-values `2/5` (t-test) and `3/10` (Mann-Whitney). -/
theorem C5_pvalue_doubling_witness :
    ((buildArraylist witnessRows ((none : Option (List PyVal)).getD
        [PyVal.pint 0, PyVal.pint 1])).get? 0 = some [1, 2] ∧
      (buildArraylist witnessRows ((none : Option (List PyVal)).getD
        [PyVal.pint 0, PyVal.pint 1])).get? 1 = some [5] ∧
      ([1, 2] : List ℚ) ≠ [] ∧ ([5] : List ℚ) ≠ [] ∧
      (0 : ℚ) < 1/20 ∧ (1/20 : ℚ) < 1 ∧ 1 ≤ 2 ∧
      (∀ x, 0 ≤ clamp01 x ∧ clamp01 x ≤ 1)) ∧
    (∃ r w, bootstrap_contrast witnessRows none npMean (1/20) 2 (fun _ => [0])
        (fun _ => [0]) id clamp01 id (fun _ _ => (0, 2/5)) (fun _ _ => (0, 3/10)) = .ok (r, w) ∧
      r.pvalue_mannWhitney = 2 * ((fun (_ _ : List ℚ) => ((0 : ℚ), (3/10 : ℚ))) [1, 2] [5]).2 ∧
      r.pvalue_ttest = ((fun (_ _ : List ℚ) => ((0 : ℚ), (2/5 : ℚ))) [1, 2] [5]).2) :=
  ⟨⟨by simp +decide [witnessRows, buildArraylist, selectGroup, uniqueFirst, pullColumn],
    by simp +decide [witnessRows, buildArraylist, selectGroup, uniqueFirst, pullColumn],
    by simp, by simp, by norm_num, by norm_num, by norm_num, clamp01_range⟩,
    C5_pvalue_doubling witnessRows none npMean (1/20) 2 (fun _ => [0])
      (fun _ => [0]) id clamp01 id (fun _ _ => (0, 2/5)) (fun _ _ => (0, 3/10)) [1, 2] [5]
      (by simp +decide [witnessRows, buildArraylist, selectGroup, uniqueFirst, pullColumn])
      (by simp +decide [witnessRows, buildArraylist, selectGroup, uniqueFirst, pullColumn])
      (by simp) (by simp) (by norm_num) (by norm_num) (by norm_num) clamp01_range⟩

/-- C6: for every aligned before/after paired dataset, the paired contrast
computes per-subject deltas `after - before`, bootstrap-resamples that delta
sequence directly as a single sample (each replicate is the statistic of one
resample of the deltas, not an elementwise difference of two independent
resample distributions), takes `statfunction(deltas)` as the point estimate,
and attaches the p-value of the one-sample t-test of the deltas against
population mean 0. -/
theorem C6_paired_delta_bootstrap (pairs : List (ℚ × ℚ)) (statfunction : List ℚ → ℚ)
    (alpha : ℚ) (reps : ℕ) (draws : ℕ → List ℕ) (ppf cdf pow15 : ℚ → ℚ)
    (tt1 : List ℚ → ℚ → ℚ × ℚ)
    (hne : pairs ≠ []) (ha0 : 0 < alpha) (ha1 : alpha < 1) (hr : 1 ≤ reps)
    (hcdf : ∀ x, 0 ≤ cdf x ∧ cdf x ≤ 1) :
    ∃ r w, pairedcontrast pairs statfunction alpha reps draws ppf cdf pow15 tt1 = .ok (r, w) ∧
      r.boots.summary = statfunction (pairs.map fun p => p.2 - p.1) ∧
      r.boots.stat_array =
        sortQ (sbStats (pairs.map fun p => p.2 - p.1) statfunction reps draws) ∧
      r.ttest_pval = (tt1 (pairs.map fun p => p.2 - p.1) 0).2 := by
  have hd : (pairs.map fun p => p.2 - p.1) ≠ [] := by
    simpa using hne
  have hcall := bootstrap_eval (pairs.map fun p => p.2 - p.1) statfunction alpha reps
    draws ppf cdf pow15 hd ha0 ha1 hr hcdf
  unfold pairedcontrast
  dsimp only
  rw [hcall]
  exact ⟨_, _, rfl, rfl, rfl, rfl⟩

/-- Witness for C6 on the paired data `[(1, 3), (2, 2)]` (deltas `[2, 0]`). -/
theorem C6_paired_delta_bootstrap_witness :
    (([(1, 3), (2, 2)] : List (ℚ × ℚ)) ≠ [] ∧ (0 : ℚ) < 1/20 ∧ (1/20 : ℚ) < 1 ∧ 1 ≤ 2 ∧
      (∀ x, 0 ≤ clamp01 x ∧ clamp01 x ≤ 1)) ∧
    (∃ r w, pairedcontrast [(1, 3), (2, 2)] npMean (1/20) 2 (fun _ => [0]) id clamp01 id
        (fun _ _ => (0, 1/4)) = .ok (r, w) ∧
      r.boots.summary = npMean (([(1, 3), (2, 2)] : List (ℚ × ℚ)).map fun p => p.2 - p.1) ∧
      r.boots.stat_array = sortQ (sbStats (([(1, 3), (2, 2)] : List (ℚ × ℚ)).map
        fun p => p.2 - p.1) npMean 2 fun _ => [0]) ∧
      r.ttest_pval = ((fun (_ : List ℚ) (_ : ℚ) => ((0 : ℚ), (1/4 : ℚ)))
        ((([(1, 3), (2, 2)] : List (ℚ × ℚ)).map fun p => p.2 - p.1)) 0).2) :=
  ⟨⟨by simp, by norm_num, by norm_num, by norm_num, clamp01_range⟩,
    C6_paired_delta_bootstrap [(1, 3), (2, 2)] npMean (1/20) 2 (fun _ => [0]) id clamp01 id
      (fun _ _ => (0, 1/4)) (by simp) (by norm_num) (by norm_num) (by norm_num) clamp01_range⟩

/-- C3 counterexample: at `data = [5, 7]`, `alpha = 1/20`, `reps = 4`, the
percentile low index is `0` (extremal), the warning loop does pass two
extremal warnings to `warnings.warn`, yet the set of warnings surfaced to the
caller is empty, because `warnings.filterwarnings("ignore")` at line 15
suppresses them all — so no stability warning is "emitted to (surfaced for)
the caller". -/
theorem C3_counterexample :
    (pctIndices (1/20) 4).1 = 0 ∧
    ((bootstrap [5, 7] npMean (1/20) 4 (fun _ => [0, 1]) id clamp01 id).map fun p => p.2)
      = .ok [.extremal, .extremal] ∧
    ((bootstrap [5, 7] npMean (1/20) 4 (fun _ => [0, 1]) id clamp01 id).map
      fun p => surfacedWarnings p.2) = .ok [] := by
  have hpct : pctIndices (1/20) 4 = (0, 3) := by
    norm_num [pctIndices, npRound]
  have hcall := bootstrap_eval [5, 7] npMean (1/20) 4 (fun _ => [0, 1]) id clamp01 id
    (by simp) (by norm_num) (by norm_num) (by norm_num) clamp01_range
  have hr4 : List.range 4 = [0, 1, 2, 3] := rfl
  have hsb : sbStats [5, 7] npMean 4 (fun _ => [0, 1]) = [6, 6, 6, 6] := by
    norm_num [sbStats, hr4, npMean]
  have hsort : sortQ ([6, 6, 6, 6] : List ℚ) = [6, 6, 6, 6] := by
    norm_num [sortQ, List.insertionSort, List.orderedInsert]
  have hjk : jackknifeStats [5, 7] npMean = [7, 5] := by
    have hr2 : List.range 2 = [0, 1] := rfl
    norm_num [jackknifeStats, hr2, npMean, List.eraseIdx]
  have hacc : acceleration [7, 5] id = 0 := by
    norm_num [acceleration, npMean]
  have hmean : npMean [5, 7] = 6 := by
    norm_num [npMean]
  have hcount : (([6, 6, 6, 6] : List ℚ).countP fun v => decide (v < 6)) = 0 := by
    simp
  have hbca : bca [5, 7] ((1/20)/2, 1 - (1/20)/2) [6, 6, 6, 6] npMean (npMean [5, 7]) 4
      id clamp01 id = (0, 3) := by
    rw [hmean]
    norm_num [bca, hjk, hacc, hcount, npRound, clamp01]
  rw [hsb, hsort, hbca, hpct] at hcall
  have hwf : warnFor 4 (0, 3) = [.extremal] := by decide
  refine ⟨by rw [hpct], ?_, ?_⟩
  · rw [hcall]
    simp [Except.map, hwf]
  · rw [hcall]
    simp [Except.map, surfacedWarnings, warnings_filter_ignore]

/-- C3 amended: whenever `bootstrap` returns, the warning loop has passed at
least one warning to `warnings.warn` exactly when some percentile or BCa index
is extremal (`0` or `reps-1`) or in the outer 10 samples of either tail (with
the extremal warning taking precedence per index pair), and the computation is
never aborted by a warning; however, because of the module-level
`warnings.filterwarnings("ignore")` (line 15), none of these warnings is
surfaced to the caller. -/
theorem C3_warnings_suppressed (data : List ℚ) (statfunction : List ℚ → ℚ)
    (alpha : ℚ) (reps : ℕ) (draws : ℕ → List ℕ) (ppf cdf pow15 : ℚ → ℚ)
    (r : BootResult) (w : List StabWarning)
    (hcall : bootstrap data statfunction alpha reps draws ppf cdf pow15 = .ok (r, w)) :
    (w ≠ [] ↔ (outerTailIdx reps r.pct_low_high.1 ∨ outerTailIdx reps r.pct_low_high.2 ∨
      outerTailIdx reps r.bca_low_high.1 ∨ outerTailIdx reps r.bca_low_high.2)) ∧
    surfacedWarnings w = [] := by
  unfold bootstrap at hcall
  cases hsb : sbBootstrap data statfunction reps draws with
  | error e =>
    rw [hsb] at hcall
    exact absurd hcall (by simp)
  | ok arr0 =>
    rw [hsb] at hcall
    dsimp only at hcall
    split at hcall <;> try exact Except.noConfusion hcall
    rw [Except.ok.injEq, Prod.mk.injEq] at hcall
    obtain ⟨hre, hwe⟩ := hcall
    subst hre
    subst hwe
    dsimp only
    constructor
    · have h1 := warnFor_ne_nil_iff reps (pctIndices alpha reps)
      have h2 := warnFor_ne_nil_iff reps (bca data (alpha / 2, 1 - alpha / 2) (sortQ arr0)
        statfunction (statfunction data) reps ppf cdf pow15)
      constructor
      · intro hne
        have hsplit : warnFor reps (pctIndices alpha reps) ≠ [] ∨
            warnFor reps (bca data (alpha / 2, 1 - alpha / 2) (sortQ arr0)
              statfunction (statfunction data) reps ppf cdf pow15) ≠ [] := by
          by_contra hcon
          push_neg at hcon
          obtain ⟨e1, e2⟩ := hcon
          exact hne (by rw [e1, e2]; rfl)
        rcases hsplit with h | h
        · rcases h1.mp h with ha | hb
          · exact Or.inl ha
          · exact Or.inr (Or.inl hb)
        · rcases h2.mp h with ha | hb
          · exact Or.inr (Or.inr (Or.inl ha))
          · exact Or.inr (Or.inr (Or.inr hb))
      · intro hc
        intro he
        rw [List.append_eq_nil] at he
        rcases hc with hc | hc | hc | hc
        · exact h1.mpr (Or.inl hc) he.1
        · exact h1.mpr (Or.inr hc) he.1
        · exact h2.mpr (Or.inl hc) he.2
        · exact h2.mpr (Or.inr hc) he.2
    · simp [surfacedWarnings, warnings_filter_ignore]

/-- Witness for the amended C3 at `data = [5, 7]`, `reps = 1`: both index
pairs are extremal, two warnings are passed to `warnings.warn`, none is
surfaced. -/
theorem C3_warnings_suppressed_witness :
    (bootstrap [5, 7] npMean (1/20) 1 (fun _ => [0, 1]) id clamp01 id =
      .ok ({ summary := 6, bootstrap_reps := 1, pct_ci_low := 6, pct_ci_high := 6,
             bca_ci_low := 6, bca_ci_high := 6, stat_array := [6],
             pct_low_high := (0, 0), bca_low_high := (0, 0) },
           [.extremal, .extremal])) ∧
    (([StabWarning.extremal, .extremal] ≠ [] ↔
        (outerTailIdx 1 0 ∨ outerTailIdx 1 0 ∨ outerTailIdx 1 0 ∨ outerTailIdx 1 0)) ∧
      surfacedWarnings [.extremal, .extremal] = []) := by
  have hpct : pctIndices (1/20) 1 = (0, 0) := by
    norm_num [pctIndices, npRound]
  have hcall := bootstrap_eval [5, 7] npMean (1/20) 1 (fun _ => [0, 1]) id clamp01 id
    (by simp) (by norm_num) (by norm_num) (by norm_num) clamp01_range
  have hr1 : List.range 1 = [0] := rfl
  have hsb : sbStats [5, 7] npMean 1 (fun _ => [0, 1]) = [6] := by
    norm_num [sbStats, hr1, npMean]
  have hsort : sortQ ([6] : List ℚ) = [6] := rfl
  have hjk : jackknifeStats [5, 7] npMean = [7, 5] := by
    have hr2 : List.range 2 = [0, 1] := rfl
    norm_num [jackknifeStats, hr2, npMean, List.eraseIdx]
  have hacc : acceleration [7, 5] id = 0 := by
    norm_num [acceleration, npMean]
  have hmean : npMean [5, 7] = 6 := by
    norm_num [npMean]
  have hcount : (([6] : List ℚ).countP fun v => decide (v < 6)) = 0 := by
    simp
  have hbca : bca [5, 7] ((1/20)/2, 1 - (1/20)/2) [6] npMean (npMean [5, 7]) 1
      id clamp01 id = (0, 0) := by
    rw [hmean]
    norm_num [bca, hjk, hacc, hcount, npRound, clamp01]
  rw [hsb, hsort, hbca, hpct, hmean] at hcall
  have hwf : warnFor 1 ((0 : ℤ), (0 : ℤ)) = [.extremal] := by decide
  have hfin : bootstrap [5, 7] npMean (1/20) 1 (fun _ => [0, 1]) id clamp01 id =
      .ok ({ summary := 6, bootstrap_reps := 1, pct_ci_low := 6, pct_ci_high := 6,
             bca_ci_low := 6, bca_ci_high := 6, stat_array := [6],
             pct_low_high := (0, 0), bca_low_high := (0, 0) },
           [.extremal, .extremal]) := by
    rw [hcall, hwf]
    rfl
  exact ⟨hfin, C3_warnings_suppressed _ _ _ _ _ _ _ _ _ _ hfin⟩

lemma sbStats_const {c : ℚ} {m : ℕ} {draws : ℕ → List ℕ} (reps : ℕ)
    (hd : ∀ k, draws k ≠ [] ∧ ∀ i ∈ draws k, i < m) :
    sbStats (List.replicate m c) npMean reps draws = List.replicate reps c := by
  refine List.eq_replicate_iff.mpr ⟨by simp [sbStats], ?_⟩
  intro b hb
  simp only [sbStats, List.mem_map, List.mem_range] at hb
  obtain ⟨k, _, rfl⟩ := hb
  obtain ⟨hk1, hk2⟩ := hd k
  have hmap : (draws k).map (fun i => (List.replicate m c).getD i 0) =
      List.replicate (draws k).length c := by
    refine List.eq_replicate_iff.mpr ⟨by simp, ?_⟩
    intro x hx
    obtain ⟨i, hi, rfl⟩ := List.mem_map.mp hx
    exact getD_replicate (hk2 i hi)
  rw [hmap]
  refine npMean_replicate (fun h => hk1 ?_) c
  exact List.length_eq_zero.mp h

/-- The degenerate two-group table of the spec's concrete scenario:
`A = [1,1,1,1]`, `B = [2,2,2,2]` (zero variance in both groups). -/
def zeroVarRows : List (PyVal × ℚ) :=
  [(.pstr "a", 1), (.pstr "a", 1), (.pstr "a", 1), (.pstr "a", 1),
   (.pstr "b", 2), (.pstr "b", 2), (.pstr "b", 2), (.pstr "b", 2)]

/-- C7: on `A = [1,1,1,1]`, `B = [2,2,2,2]` the two-group contrast returns
without error (for any valid resampling plan, `reps ≥ 1` and any CDF model),
with point estimate `1`, percentile and BCa CI bounds all collapsed to `1`,
and p-value fields equal to the (total, hence well-defined) library results:
the t-test p-value unmodified and the Mann-Whitney p-value doubled. -/
theorem C7_zero_variance_contrast (reps : ℕ) (drawsRef drawsExp : ℕ → List ℕ)
    (ppf cdf pow15 : ℚ → ℚ) (tt mw : List ℚ → List ℚ → ℚ × ℚ)
    (hr : 1 ≤ reps)
    (hdr : ∀ k, drawsRef k ≠ [] ∧ ∀ i ∈ drawsRef k, i < 4)
    (hde : ∀ k, drawsExp k ≠ [] ∧ ∀ i ∈ drawsExp k, i < 4)
    (hcdf : ∀ x, 0 ≤ cdf x ∧ cdf x ≤ 1) :
    ∃ r w, bootstrap_contrast zeroVarRows none npMean (1/20) reps drawsRef drawsExp
        ppf cdf pow15 tt mw = .ok (r, w) ∧
      r.summary = 1 ∧ r.pct_ci_low = 1 ∧ r.pct_ci_high = 1 ∧
      r.bca_ci_low = 1 ∧ r.bca_ci_high = 1 ∧
      r.ref_input = [1, 1, 1, 1] ∧ r.test_input = [2, 2, 2, 2] ∧
      r.pvalue_ttest = (tt [1, 1, 1, 1] [2, 2, 2, 2]).2 ∧
      r.pvalue_mannWhitney = (mw [1, 1, 1, 1] [2, 2, 2, 2]).2 * 2 := by
  have h0 : (buildArraylist zeroVarRows ((none : Option (List PyVal)).getD
      [PyVal.pint 0, PyVal.pint 1])).get? 0 = some [1, 1, 1, 1] := by
    simp +decide [zeroVarRows, buildArraylist, selectGroup, uniqueFirst, pullColumn]
  have h1 : (buildArraylist zeroVarRows ((none : Option (List PyVal)).getD
      [PyVal.pint 0, PyVal.pint 1])).get? 1 = some [2, 2, 2, 2] := by
    simp +decide [zeroVarRows, buildArraylist, selectGroup, uniqueFirst, pullColumn]
  have hsR : sbStats [1, 1, 1, 1] npMean reps drawsRef = List.replicate reps 1 := by
    rw [show ([1, 1, 1, 1] : List ℚ) = List.replicate 4 1 from rfl]
    exact sbStats_const reps hdr
  have hsE : sbStats [2, 2, 2, 2] npMean reps drawsExp = List.replicate reps 2 := by
    rw [show ([2, 2, 2, 2] : List ℚ) = List.replicate 4 2 from rfl]
    exact sbStats_const reps hde
  have hzip : List.zipWith (fun a b => a - b) (List.replicate reps (2 : ℚ))
      (List.replicate reps 1) = List.replicate reps 1 := by
    rw [zipWith_sub_replicate]
    norm_num
  have hcall := contrast_eval zeroVarRows none npMean (1/20) reps drawsRef drawsExp
    ppf cdf pow15 tt mw [1, 1, 1, 1] [2, 2, 2, 2] h0 h1 (by simp) (by simp)
    (by norm_num) (by norm_num) hr hcdf
  rw [hsR, hsE, hzip, sortQ_replicate] at hcall
  obtain ⟨hp0, hp12, hp2⟩ := pctIndices_bounds (show (0 : ℚ) < 1/20 by norm_num)
    (show (1/20 : ℚ) < 1 by norm_num) hr
  obtain ⟨⟨hb10, hb11⟩, hb20, hb21⟩ := bca_bounds (List.replicate reps 1)
    (1/20 / 2, 1 - 1/20 / 2) (List.replicate reps 1) npMean
    (npMean [2, 2, 2, 2] - npMean [1, 1, 1, 1]) reps ppf cdf pow15 hcdf hr
  have hrz : (1 : ℤ) ≤ (reps : ℤ) := by exact_mod_cast hr
  refine ⟨_, _, hcall, ?_, ?_, ?_, ?_, ?_, rfl, rfl, rfl, rfl⟩
  · show npMean [2, 2, 2, 2] - npMean [1, 1, 1, 1] = 1
    norm_num [npMean]
  · show (List.replicate reps (1 : ℚ)).getD (pctIndices (1/20) reps).1.toNat 0 = 1
    exact getD_replicate (by omega)
  · show (List.replicate reps (1 : ℚ)).getD (pctIndices (1/20) reps).2.toNat 0 = 1
    exact getD_replicate (by omega)
  · exact getD_replicate (by omega)
  · exact getD_replicate (by omega)

/-- Witness for C7 at `reps = 4` with the full-sample resampling plan. -/
theorem C7_zero_variance_contrast_witness :
    (1 ≤ 4 ∧
      (∀ k : ℕ, ((fun (_ : ℕ) => ([0, 1, 2, 3] : List ℕ)) k) ≠ [] ∧
        ∀ i ∈ ((fun (_ : ℕ) => ([0, 1, 2, 3] : List ℕ)) k), i < 4) ∧
      (∀ x, 0 ≤ clamp01 x ∧ clamp01 x ≤ 1)) ∧
    (∃ r w, bootstrap_contrast zeroVarRows none npMean (1/20) 4 (fun _ => [0, 1, 2, 3])
        (fun _ => [0, 1, 2, 3]) id clamp01 id (fun _ _ => (0, 1/2))
        (fun _ _ => (0, 1/2)) = .ok (r, w) ∧
      r.summary = 1 ∧ r.pct_ci_low = 1 ∧ r.pct_ci_high = 1 ∧
      r.bca_ci_low = 1 ∧ r.bca_ci_high = 1 ∧
      r.ref_input = [1, 1, 1, 1] ∧ r.test_input = [2, 2, 2, 2] ∧
      r.pvalue_ttest = ((fun (_ _ : List ℚ) => ((0 : ℚ), (1/2 : ℚ))) [1, 1, 1, 1] [2, 2, 2, 2]).2 ∧
      r.pvalue_mannWhitney =
        ((fun (_ _ : List ℚ) => ((0 : ℚ), (1/2 : ℚ))) [1, 1, 1, 1] [2, 2, 2, 2]).2 * 2) :=
  ⟨⟨by norm_num, fun k => ⟨by simp, by intro i hi; simp at hi; omega⟩, clamp01_range⟩,
    C7_zero_variance_contrast 4 (fun _ => [0, 1, 2, 3]) (fun _ => [0, 1, 2, 3]) id clamp01 id
      (fun _ _ => (0, 1/2)) (fun _ _ => (0, 1/2)) (by norm_num)
      (fun k => ⟨by simp, by intro i hi; simp at hi; omega⟩)
      (fun k => ⟨by simp, by intro i hi; simp at hi; omega⟩) clamp01_range⟩

/-- C9 counterexample: with the selector `["a", "b"]` over a table whose only
group is `"a"`, the unresolvable entry is silently dropped, and the contrast
fails with Python's `IndexError` at `exp_array = arraylist[1]`, not with the
`InvalidInputError` the claim names. -/
theorem C9_counterexample :
    bootstrap_contrast [(.pstr "a", 3)] (some [.pstr "a", .pstr "b"]) npMean (1/20) 5
      (fun _ => [0]) (fun _ => [0]) id clamp01 id
      (fun _ _ => (0, 0)) (fun _ _ => (0, 0)) = .error .indexError ∧
    PyErr.indexError ≠ PyErr.invalidInputError := by
  constructor
  · have harr : buildArraylist [(.pstr "a", 3)] ((some [PyVal.pstr "a", PyVal.pstr "b"]).getD
        [PyVal.pint 0, PyVal.pint 1]) = [[3]] := by
      simp +decide [buildArraylist, selectGroup, uniqueFirst, pullColumn]
    unfold bootstrap_contrast
    dsimp only
    rw [harr]
    rfl
  · decide

/-- C9 amended: whenever the group selector resolves to fewer than two groups
(unresolvable entries are silently skipped), `bootstrap_contrast` fails with
an uncaught `IndexError` from `arraylist[0]` / `arraylist[1]` — not with an
`InvalidInputError`, which the source neither defines nor raises — and no
result record is produced. -/
theorem C9_underresolved_selector_indexerror (rows : List (PyVal × ℚ))
    (idx : Option (List PyVal)) (statfunction : List ℚ → ℚ) (alpha : ℚ)
    (reps : ℕ) (drawsRef drawsExp : ℕ → List ℕ) (ppf cdf pow15 : ℚ → ℚ)
    (tt mw : List ℚ → List ℚ → ℚ × ℚ)
    (hlen : (buildArraylist rows (idx.getD [PyVal.pint 0, PyVal.pint 1])).length < 2) :
    bootstrap_contrast rows idx statfunction alpha reps drawsRef drawsExp
      ppf cdf pow15 tt mw = .error .indexError := by
  have h1 : (buildArraylist rows (idx.getD [PyVal.pint 0, PyVal.pint 1])).get? 1 = none :=
    List.get?_eq_none.mpr (by omega)
  unfold bootstrap_contrast
  dsimp only
  cases h0 : (buildArraylist rows (idx.getD [PyVal.pint 0, PyVal.pint 1])).get? 0 with
  | none => rw [h1]
  | some a => rw [h1]

/-- Witness for the amended C9: an empty selector list resolves to zero
groups, and the call fails with `IndexError`. -/
theorem C9_underresolved_selector_indexerror_witness :
    (buildArraylist [(.pstr "a", 3)] ((some ([] : List PyVal)).getD
      [PyVal.pint 0, PyVal.pint 1])).length < 2 ∧
    bootstrap_contrast [(.pstr "a", 3)] (some ([] : List PyVal)) npMean (1/20) 5
      (fun _ => [0]) (fun _ => [0]) id clamp01 id
      (fun _ _ => (0, 0)) (fun _ _ => (0, 0)) = .error .indexError :=
  ⟨by simp [buildArraylist],
    C9_underresolved_selector_indexerror [(.pstr "a", 3)] (some []) npMean (1/20) 5
      (fun _ => [0]) (fun _ => [0]) id clamp01 id
      (fun _ _ => (0, 0)) (fun _ _ => (0, 0)) (by simp [buildArraylist])⟩

/-- A table whose grouping column contains the integer values `5` and `0`:
the level `0` collides with the default positional selector `idx = [0, 1]`. -/
def rows10 : List (PyVal × ℚ) := [(.pint 5, 10), (.pint 0, 20)]

/-- C10 counterexample: on `rows10` the first-appearing level is `5` with data
`[10]`, but with the default `idx = [0, 1]` the entry `0` is found among the
level *values* first (`levels_to_idx` lookup precedes the positional
`idx_to_levels` lookup), so the reference group becomes the group labelled
`0` — data `[20]`, not `[10]` — and both selected groups coincide, giving
summary `0` instead of a first-two-levels contrast. -/
theorem C10_counterexample :
    uniqueFirst (rows10.map Prod.fst) = [.pint 5, .pint 0] ∧
    pullColumn rows10 (.pint 5) = [10] ∧
    ((bootstrap_contrast rows10 none npMean (1/20) 2 (fun _ => [0]) (fun _ => [0])
        id clamp01 id (fun _ _ => (0, 0)) (fun _ _ => (0, 0))).map
      fun p => (p.1.ref_input, p.1.summary)) = .ok ([20], 0) ∧
    ([20] : List ℚ) ≠ [10] := by
  refine ⟨by simp +decide [rows10, uniqueFirst], by simp +decide [rows10, pullColumn], ?_, by norm_num⟩
  have h0 : (buildArraylist rows10 ((none : Option (List PyVal)).getD
      [PyVal.pint 0, PyVal.pint 1])).get? 0 = some [20] := by
    simp +decide [rows10, buildArraylist, selectGroup, uniqueFirst, pullColumn]
  have h1 : (buildArraylist rows10 ((none : Option (List PyVal)).getD
      [PyVal.pint 0, PyVal.pint 1])).get? 1 = some [20] := by
    simp +decide [rows10, buildArraylist, selectGroup, uniqueFirst, pullColumn]
  have hcall := contrast_eval rows10 none npMean (1/20) 2 (fun _ => [0]) (fun _ => [0])
    id clamp01 id (fun _ _ => (0, 0)) (fun _ _ => (0, 0)) [20] [20] h0 h1
    (by simp) (by simp) (by norm_num) (by norm_num) (by norm_num) clamp01_range
  rw [hcall]
  simp [Except.map, npMean]

/-- C10 amended: when neither the integer `0` nor `1` occurs among the level
values (e.g. string labels), the default `idx = [0, 1]` does select the first
two distinct levels of the grouping column in order of first appearance, the
first as reference and the second as experimental, so the summary is
`statfunction(second level data) - statfunction(first level data)` — and
hence depends on the row order of the table through the appearance order of
the levels. -/
theorem C10_default_selection (rows : List (PyVal × ℚ)) (statfunction : List ℚ → ℚ)
    (alpha : ℚ) (reps : ℕ) (drawsRef drawsExp : ℕ → List ℕ) (ppf cdf pow15 : ℚ → ℚ)
    (tt mw : List ℚ → List ℚ → ℚ × ℚ)
    (hn0 : PyVal.pint 0 ∉ uniqueFirst (rows.map Prod.fst))
    (hn1 : PyVal.pint 1 ∉ uniqueFirst (rows.map Prod.fst))
    (hlev : 2 ≤ (uniqueFirst (rows.map Prod.fst)).length)
    (ha0 : 0 < alpha) (ha1 : alpha < 1) (hr : 1 ≤ reps)
    (hcdf : ∀ x, 0 ≤ cdf x ∧ cdf x ≤ 1) :
    ∃ r w, bootstrap_contrast rows none statfunction alpha reps drawsRef drawsExp
        ppf cdf pow15 tt mw = .ok (r, w) ∧
      r.ref_input = pullColumn rows ((uniqueFirst (rows.map Prod.fst)).getD 0 (.pint 0)) ∧
      r.test_input = pullColumn rows ((uniqueFirst (rows.map Prod.fst)).getD 1 (.pint 0)) ∧
      r.summary =
        statfunction (pullColumn rows ((uniqueFirst (rows.map Prod.fst)).getD 1 (.pint 0))) -
          statfunction (pullColumn rows ((uniqueFirst (rows.map Prod.fst)).getD 0 (.pint 0))) := by
  have hsel0 : selectGroup rows (.pint 0) =
      some (pullColumn rows ((uniqueFirst (rows.map Prod.fst)).getD 0 (.pint 0))) := by
    have h2 : (0 : ℤ) < ((uniqueFirst (rows.map Prod.fst)).length : ℤ) := by
      exact_mod_cast show 0 < (uniqueFirst (rows.map Prod.fst)).length by omega
    simpa only [Int.toNat_zero] using selectGroup_pint_pos hn0 (le_refl 0) h2
  have hsel1 : selectGroup rows (.pint 1) =
      some (pullColumn rows ((uniqueFirst (rows.map Prod.fst)).getD 1 (.pint 0))) := by
    have h2 : (1 : ℤ) < ((uniqueFirst (rows.map Prod.fst)).length : ℤ) := by
      exact_mod_cast show 1 < (uniqueFirst (rows.map Prod.fst)).length by omega
    simpa only [Int.toNat_one] using selectGroup_pint_pos hn1 (by norm_num) h2
  have h0 : (buildArraylist rows ((none : Option (List PyVal)).getD
      [PyVal.pint 0, PyVal.pint 1])).get? 0 =
      some (pullColumn rows ((uniqueFirst (rows.map Prod.fst)).getD 0 (.pint 0))) := by
    simp [buildArraylist, hsel0, hsel1]
  have h1 : (buildArraylist rows ((none : Option (List PyVal)).getD
      [PyVal.pint 0, PyVal.pint 1])).get? 1 =
      some (pullColumn rows ((uniqueFirst (rows.map Prod.fst)).getD 1 (.pint 0))) := by
    simp [buildArraylist, hsel0, hsel1]
  have hne0 : pullColumn rows ((uniqueFirst (rows.map Prod.fst)).getD 0 (.pint 0)) ≠ [] :=
    pullColumn_ne_nil ((mem_uniqueFirst _ _).mp (getD_mem_of_lt (by omega)))
  have hne1 : pullColumn rows ((uniqueFirst (rows.map Prod.fst)).getD 1 (.pint 0)) ≠ [] :=
    pullColumn_ne_nil ((mem_uniqueFirst _ _).mp (getD_mem_of_lt (by omega)))
  exact ⟨_, _, contrast_eval rows none statfunction alpha reps drawsRef drawsExp
    ppf cdf pow15 tt mw _ _ h0 h1 hne0 hne1 ha0 ha1 hr hcdf, rfl, rfl, rfl⟩

/-- Witness for the amended C10 on `witnessRows` (string labels "a", "b"). -/
theorem C10_default_selection_witness :
    (PyVal.pint 0 ∉ uniqueFirst (witnessRows.map Prod.fst) ∧
      PyVal.pint 1 ∉ uniqueFirst (witnessRows.map Prod.fst) ∧
      2 ≤ (uniqueFirst (witnessRows.map Prod.fst)).length ∧
      (0 : ℚ) < 1/20 ∧ (1/20 : ℚ) < 1 ∧ 1 ≤ 2 ∧
      (∀ x, 0 ≤ clamp01 x ∧ clamp01 x ≤ 1)) ∧
    (∃ r w, bootstrap_contrast witnessRows none npMean (1/20) 2 (fun _ => [0])
        (fun _ => [0]) id clamp01 id (fun _ _ => (0, 0)) (fun _ _ => (0, 0)) = .ok (r, w) ∧
      r.ref_input = pullColumn witnessRows ((uniqueFirst (witnessRows.map Prod.fst)).getD 0 (.pint 0)) ∧
      r.test_input = pullColumn witnessRows ((uniqueFirst (witnessRows.map Prod.fst)).getD 1 (.pint 0)) ∧
      r.summary =
        npMean (pullColumn witnessRows ((uniqueFirst (witnessRows.map Prod.fst)).getD 1 (.pint 0))) -
          npMean (pullColumn witnessRows ((uniqueFirst (witnessRows.map Prod.fst)).getD 0 (.pint 0)))) :=
  ⟨⟨by simp +decide [witnessRows, uniqueFirst], by simp +decide [witnessRows, uniqueFirst],
    by simp +decide [witnessRows, uniqueFirst], by norm_num, by norm_num, by norm_num,
    clamp01_range⟩,
    C10_default_selection witnessRows npMean (1/20) 2 (fun _ => [0]) (fun _ => [0])
      id clamp01 id (fun _ _ => (0, 0)) (fun _ _ => (0, 0))
      (by simp +decide [witnessRows, uniqueFirst]) (by simp +decide [witnessRows, uniqueFirst])
      (by simp +decide [witnessRows, uniqueFirst]) (by norm_num) (by norm_num) (by norm_num)
      clamp01_range⟩

/-- C8 amended: for two resolvable group labels, the point estimate of the
reversed-order contrast is always the exact negation of the original (for any
statistic and any resampling).  The percentile CI bounds flip and negate only
under additional conditions: the per-group resampling plans must be matched
across the two calls, and the rounded percentile indices must satisfy
`low + high = reps - 1` (which can fail under round-half-to-even, e.g.
`alpha = 1/3`, `reps = 4`); under fresh randomness they need not correspond at
all. -/
theorem C8_order_flip (rows : List (PyVal × ℚ)) (la lb : PyVal)
    (statfunction : List ℚ → ℚ) (alpha : ℚ) (reps : ℕ) (dA dB : ℕ → List ℕ)
    (ppf cdf pow15 : ℚ → ℚ) (tt mw : List ℚ → List ℚ → ℚ × ℚ)
    (hla : la ∈ uniqueFirst (rows.map Prod.fst))
    (hlb : lb ∈ uniqueFirst (rows.map Prod.fst))
    (ha0 : 0 < alpha) (ha1 : alpha < 1) (hr : 1 ≤ reps)
    (hcdf : ∀ x, 0 ≤ cdf x ∧ cdf x ≤ 1)
    (hlohi : (pctIndices alpha reps).1 + (pctIndices alpha reps).2 = (reps : ℤ) - 1) :
    ∃ rAB wAB rBA wBA,
      bootstrap_contrast rows (some [la, lb]) statfunction alpha reps dA dB
        ppf cdf pow15 tt mw = .ok (rAB, wAB) ∧
      bootstrap_contrast rows (some [lb, la]) statfunction alpha reps dB dA
        ppf cdf pow15 tt mw = .ok (rBA, wBA) ∧
      rBA.summary = -rAB.summary ∧
      rBA.pct_ci_low = -rAB.pct_ci_high ∧
      rBA.pct_ci_high = -rAB.pct_ci_low := by
  have hselA := selectGroup_of_mem hla
  have hselB := selectGroup_of_mem hlb
  have h0AB : (buildArraylist rows ((some [la, lb]).getD [PyVal.pint 0, PyVal.pint 1])).get? 0 =
      some (pullColumn rows la) := by
    simp [buildArraylist, hselA, hselB]
  have h1AB : (buildArraylist rows ((some [la, lb]).getD [PyVal.pint 0, PyVal.pint 1])).get? 1 =
      some (pullColumn rows lb) := by
    simp [buildArraylist, hselA, hselB]
  have h0BA : (buildArraylist rows ((some [lb, la]).getD [PyVal.pint 0, PyVal.pint 1])).get? 0 =
      some (pullColumn rows lb) := by
    simp [buildArraylist, hselA, hselB]
  have h1BA : (buildArraylist rows ((some [lb, la]).getD [PyVal.pint 0, PyVal.pint 1])).get? 1 =
      some (pullColumn rows la) := by
    simp [buildArraylist, hselA, hselB]
  have hneA : pullColumn rows la ≠ [] := pullColumn_ne_nil ((mem_uniqueFirst _ _).mp hla)
  have hneB : pullColumn rows lb ≠ [] := pullColumn_ne_nil ((mem_uniqueFirst _ _).mp hlb)
  have hAB := contrast_eval rows (some [la, lb]) statfunction alpha reps dA dB
    ppf cdf pow15 tt mw (pullColumn rows la) (pullColumn rows lb) h0AB h1AB hneA hneB
    ha0 ha1 hr hcdf
  have hBA := contrast_eval rows (some [lb, la]) statfunction alpha reps dB dA
    ppf cdf pow15 tt mw (pullColumn rows lb) (pullColumn rows la) h0BA h1BA hneB hneA
    ha0 ha1 hr hcdf
  have hswap : List.zipWith (fun a b => a - b)
      (sbStats (pullColumn rows la) statfunction reps dA)
      (sbStats (pullColumn rows lb) statfunction reps dB) =
      (List.zipWith (fun a b => a - b)
        (sbStats (pullColumn rows lb) statfunction reps dB)
        (sbStats (pullColumn rows la) statfunction reps dA)).map fun x => -x :=
    zipWith_sub_comm _ _
  have hsortBA : sortQ (List.zipWith (fun a b => a - b)
      (sbStats (pullColumn rows la) statfunction reps dA)
      (sbStats (pullColumn rows lb) statfunction reps dB)) =
      ((sortQ (List.zipWith (fun a b => a - b)
        (sbStats (pullColumn rows lb) statfunction reps dB)
        (sbStats (pullColumn rows la) statfunction reps dA))).map fun x => -x).reverse := by
    rw [hswap, sortQ_map_neg]
  have hlenAB : (sortQ (List.zipWith (fun a b => a - b)
      (sbStats (pullColumn rows lb) statfunction reps dB)
      (sbStats (pullColumn rows la) statfunction reps dA))).length = reps := by
    rw [sortQ_length, List.length_zipWith, sbStats_length, sbStats_length, min_self]
  obtain ⟨hp0, hp12, hp2⟩ := pctIndices_bounds ha0 ha1 hr
  have hrz : (1 : ℤ) ≤ (reps : ℤ) := by exact_mod_cast hr
  refine ⟨_, _, _, _, hAB, hBA, ?_, ?_, ?_⟩
  · show statfunction (pullColumn rows la) - statfunction (pullColumn rows lb) =
      -(statfunction (pullColumn rows lb) - statfunction (pullColumn rows la))
    ring
  · show (sortQ (List.zipWith (fun a b => a - b)
        (sbStats (pullColumn rows la) statfunction reps dA)
        (sbStats (pullColumn rows lb) statfunction reps dB))).getD
          (pctIndices alpha reps).1.toNat 0 =
      -((sortQ (List.zipWith (fun a b => a - b)
        (sbStats (pullColumn rows lb) statfunction reps dB)
        (sbStats (pullColumn rows la) statfunction reps dA))).getD
          (pctIndices alpha reps).2.toNat 0)
    rw [hsortBA, getD_reverse (by rw [List.length_map, hlenAB]; omega),
      List.length_map, hlenAB, getD_map_neg (by rw [hlenAB]; omega)]
    congr 2
    omega
  · show (sortQ (List.zipWith (fun a b => a - b)
        (sbStats (pullColumn rows la) statfunction reps dA)
        (sbStats (pullColumn rows lb) statfunction reps dB))).getD
          (pctIndices alpha reps).2.toNat 0 =
      -((sortQ (List.zipWith (fun a b => a - b)
        (sbStats (pullColumn rows lb) statfunction reps dB)
        (sbStats (pullColumn rows la) statfunction reps dA))).getD
          (pctIndices alpha reps).1.toNat 0)
    rw [hsortBA, getD_reverse (by rw [List.length_map, hlenAB]; omega),
      List.length_map, hlenAB, getD_map_neg (by rw [hlenAB]; omega)]
    congr 2
    omega

/-- Three-row table with groups "a" (data `[0]`) and "b" (data `[1, 3]`) used
to refute the CI-flip part of the symmetry claim. -/
def rows8 : List (PyVal × ℚ) := [(.pstr "a", 0), (.pstr "b", 1), (.pstr "b", 3)]

/-- C8 counterexample: at `alpha = 1/3`, `reps = 4`, with matched per-group
resampling plans, `contrast("a","b")` has point estimate `2` and percentile
bounds `(1, 2)`, while `contrast("b","a")` has point estimate `-2` and
percentile bounds `(-3, -1)`: the point estimate negates, but the reversed
low bound is `-3 ≠ -2 = -(high bound)`, so the CI bounds do not flip and
negate (round-half-to-even makes `low + high = 1 ≠ reps - 1 = 3`). -/
theorem C8_counterexample :
    ((bootstrap_contrast rows8 (some [.pstr "a", .pstr "b"]) npMean (1/3) 4
        (fun _ => [0])
        (fun k => if k = 0 then [0, 0] else if k = 1 then [0, 1] else
          if k = 2 then [1, 1] else [0, 0])
        id clamp01 id (fun _ _ => (0, 0)) (fun _ _ => (0, 0))).map
      fun p => (p.1.summary, p.1.pct_ci_low, p.1.pct_ci_high)) = .ok (2, 1, 2) ∧
    ((bootstrap_contrast rows8 (some [.pstr "b", .pstr "a"]) npMean (1/3) 4
        (fun k => if k = 0 then [0, 0] else if k = 1 then [0, 1] else
          if k = 2 then [1, 1] else [0, 0])
        (fun _ => [0])
        id clamp01 id (fun _ _ => (0, 0)) (fun _ _ => (0, 0))).map
      fun p => (p.1.summary, p.1.pct_ci_low, p.1.pct_ci_high)) = .ok (-2, -3, -1) ∧
    ¬((-3 : ℚ) = -(2 : ℚ)) := by
  have hr4 : List.range 4 = [0, 1, 2, 3] := rfl
  have h0AB : (buildArraylist rows8 ((some [PyVal.pstr "a", PyVal.pstr "b"]).getD
      [PyVal.pint 0, PyVal.pint 1])).get? 0 = some [0] := by
    simp +decide [rows8, buildArraylist, selectGroup, uniqueFirst, pullColumn]
  have h1AB : (buildArraylist rows8 ((some [PyVal.pstr "a", PyVal.pstr "b"]).getD
      [PyVal.pint 0, PyVal.pint 1])).get? 1 = some [1, 3] := by
    simp +decide [rows8, buildArraylist, selectGroup, uniqueFirst, pullColumn]
  have h0BA : (buildArraylist rows8 ((some [PyVal.pstr "b", PyVal.pstr "a"]).getD
      [PyVal.pint 0, PyVal.pint 1])).get? 0 = some [1, 3] := by
    simp +decide [rows8, buildArraylist, selectGroup, uniqueFirst, pullColumn]
  have h1BA : (buildArraylist rows8 ((some [PyVal.pstr "b", PyVal.pstr "a"]).getD
      [PyVal.pint 0, PyVal.pint 1])).get? 1 = some [0] := by
    simp +decide [rows8, buildArraylist, selectGroup, uniqueFirst, pullColumn]
  have hSA : sbStats [0] npMean 4 (fun _ => [0]) = [0, 0, 0, 0] := by
    norm_num [sbStats, hr4, npMean]
  have hSB : sbStats [1, 3] npMean 4 (fun k => if k = 0 then [0, 0] else if k = 1 then [0, 1]
      else if k = 2 then [1, 1] else [0, 0]) = [1, 2, 3, 1] := by
    norm_num [sbStats, hr4, npMean]
  have hzipAB : List.zipWith (fun a b => a - b) ([1, 2, 3, 1] : List ℚ) [0, 0, 0, 0] =
      [1, 2, 3, 1] := by
    norm_num [List.zipWith]
  have hzipBA : List.zipWith (fun a b => a - b) ([0, 0, 0, 0] : List ℚ) [1, 2, 3, 1] =
      [-1, -2, -3, -1] := by
    norm_num [List.zipWith]
  have hsortAB : sortQ [1, 2, 3, 1] = [1, 1, 2, 3] := by
    norm_num [sortQ, List.insertionSort, List.orderedInsert]
  have hsortBA : sortQ [-1, -2, -3, -1] = [-3, -2, -1, -1] := by
    norm_num [sortQ, List.insertionSort, List.orderedInsert]
  have hpct : pctIndices (1/3) 4 = (0, 2) := by
    norm_num [pctIndices, npRound]
  have hcallAB := contrast_eval rows8 (some [.pstr "a", .pstr "b"]) npMean (1/3) 4
    (fun _ => [0])
    (fun k => if k = 0 then [0, 0] else if k = 1 then [0, 1] else
      if k = 2 then [1, 1] else [0, 0])
    id clamp01 id (fun _ _ => (0, 0)) (fun _ _ => (0, 0)) [0] [1, 3] h0AB h1AB
    (by simp) (by simp) (by norm_num) (by norm_num) (by norm_num) clamp01_range
  have hcallBA := contrast_eval rows8 (some [.pstr "b", .pstr "a"]) npMean (1/3) 4
    (fun k => if k = 0 then [0, 0] else if k = 1 then [0, 1] else
      if k = 2 then [1, 1] else [0, 0])
    (fun _ => [0])
    id clamp01 id (fun _ _ => (0, 0)) (fun _ _ => (0, 0)) [1, 3] [0] h0BA h1BA
    (by simp) (by simp) (by norm_num) (by norm_num) (by norm_num) clamp01_range
  rw [hSA, hSB, hzipAB, hsortAB, hpct] at hcallAB
  rw [hSA, hSB, hzipBA, hsortBA, hpct] at hcallBA
  refine ⟨?_, ?_, by norm_num⟩
  · rw [hcallAB]
    simp [Except.map, npMean]
    norm_num
  · rw [hcallBA]
    simp [Except.map, npMean]
    norm_num

/-- Witness for the amended C8 on `rows8` at `alpha = 1/20`, `reps = 4`,
where the percentile indices are `(0, 3)` and do satisfy `low + high = 3`. -/
theorem C8_order_flip_witness :
    (PyVal.pstr "a" ∈ uniqueFirst (rows8.map Prod.fst) ∧
      PyVal.pstr "b" ∈ uniqueFirst (rows8.map Prod.fst) ∧
      (0 : ℚ) < 1/20 ∧ (1/20 : ℚ) < 1 ∧ 1 ≤ 4 ∧
      (∀ x, 0 ≤ clamp01 x ∧ clamp01 x ≤ 1) ∧
      (pctIndices (1/20) 4).1 + (pctIndices (1/20) 4).2 = (4 : ℤ) - 1) ∧
    (∃ rAB wAB rBA wBA,
      bootstrap_contrast rows8 (some [.pstr "a", .pstr "b"]) npMean (1/20) 4
        (fun _ => [0]) (fun _ => [0, 1]) id clamp01 id
        (fun _ _ => (0, 0)) (fun _ _ => (0, 0)) = .ok (rAB, wAB) ∧
      bootstrap_contrast rows8 (some [.pstr "b", .pstr "a"]) npMean (1/20) 4
        (fun _ => [0, 1]) (fun _ => [0]) id clamp01 id
        (fun _ _ => (0, 0)) (fun _ _ => (0, 0)) = .ok (rBA, wBA) ∧
      rBA.summary = -rAB.summary ∧
      rBA.pct_ci_low = -rAB.pct_ci_high ∧
      rBA.pct_ci_high = -rAB.pct_ci_low) :=
  ⟨⟨by simp +decide [rows8, uniqueFirst], by simp +decide [rows8, uniqueFirst],
    by norm_num, by norm_num, by norm_num, clamp01_range,
    by norm_num [pctIndices, npRound]⟩,
    C8_order_flip rows8 (.pstr "a") (.pstr "b") npMean (1/20) 4
      (fun _ => [0]) (fun _ => [0, 1]) id clamp01 id
      (fun _ _ => (0, 0)) (fun _ _ => (0, 0))
      (by simp +decide [rows8, uniqueFirst]) (by simp +decide [rows8, uniqueFirst])
      (by norm_num) (by norm_num) (by norm_num) clamp01_range
      (by norm_num [pctIndices, npRound])⟩
